import Mathlib

/-!
Verification of the backgammon repository's rules-configuration model,
initial game state, and dice primitive, shallowly embedded from
`src/bg_rules.rs` and `src/game.rs`.
-/

namespace Backgammon

/-- Player enum from `src/bg_rules.rs`: the two seats plus the neutral
`Nobody` default. -/
inductive Player where
  | Nobody
  | Player1
  | Player2
deriving DecidableEq

/-- Display impl for `Player` from `src/bg_rules.rs`. -/
def Player.display : Player → String
  | Player.Nobody => "Nobody"
  | Player.Player1 => "Player 1"
  | Player.Player2 => "Player 2"

/-- The `Rules` struct of `src/bg_rules.rs`. Rust `u32` (`points`) and `u8`
(`murphy_limit`) are embedded as `Nat`; no arithmetic is ever performed on
them, they are only stored and compared, so no modular reduction arises. -/
structure Rules where
  points : Nat
  beaver : Bool
  raccoon : Bool
  murphy : Bool
  murphy_limit : Nat
  jacoby : Bool
  crawford : Bool
  holland : Bool
deriving DecidableEq

/-- Default impl for `Rules` from `src/bg_rules.rs`. -/
def Rules.default : Rules :=
  { points := 7
    beaver := false
    raccoon := false
    murphy := false
    murphy_limit := 0
    jacoby := false
    crawford := true
    holland := false }

/-- Builder operation `with_points` from `impl SetRules for Rules`. -/
def Rules.with_points (r : Rules) (p : Nat) : Rules :=
  { r with points := p }

/-- Builder operation `with_beaver` from `impl SetRules for Rules`. -/
def Rules.with_beaver (r : Rules) : Rules :=
  { r with beaver := true }

/-- Builder operation `with_raccoon` from `impl SetRules for Rules`. -/
def Rules.with_raccoon (r : Rules) : Rules :=
  { r with raccoon := true }

/-- Builder operation `with_murphy` from `impl SetRules for Rules`: sets `murphy := true`
and `murphy_limit := limit`. -/
def Rules.with_murphy (r : Rules) (limit : Nat) : Rules :=
  { r with murphy := true, murphy_limit := limit }

/-- Builder operation `with_jacoby` from `impl SetRules for Rules`. -/
def Rules.with_jacoby (r : Rules) : Rules :=
  { r with jacoby := true }

/-- Builder operation `with_crawford` from `impl SetRules for Rules`. -/
def Rules.with_crawford (r : Rules) : Rules :=
  { r with crawford := true }

/-- Builder operation `with_holland` from `impl SetRules for Rules`. -/
def Rules.with_holland (r : Rules) : Rules :=
  { r with holland := true }

/-- Rendering of a Rust `bool` by its Display impl. -/
def boolDisplay : Bool → String
  | true => "true"
  | false => "false"

/-- Rendering of a Rust unsigned integer by its Display impl: decimal
digits, as produced by `Nat.repr`. -/
def natDisplay (n : Nat) : String :=
  Nat.repr n

/-- Semantics of a Rust `write!` call: the format string splits, at its
placeholders, into literal segments which are emitted interleaved with the
rendered arguments; leftover segments are emitted as-is. -/
def formatWith : List String → List String → String
  | [], _ => ""
  | s :: rest, [] => s ++ formatWith rest []
  | s :: rest, a :: args => s ++ a ++ formatWith rest args

/-- Literal segments of the format string of `impl fmt::Display for Rules`
in `src/bg_rules.rs`, split at its eight placeholders. -/
def rulesFormatSegments : List String :=
  ["Points: ", ", Beaver: ", ", Raccoon: ", ", Murphy: ",
   ", Murphy Limit: ", ", Jacoby: ", ", Crawford: ", ", Holland: ", ""]

/-- Display impl for `Rules` from `src/bg_rules.rs`: `write!` over the
fixed format string with the eight fields as arguments, in declaration
order. -/
def Rules.display (r : Rules) : String :=
  formatWith rulesFormatSegments
    [natDisplay r.points, boolDisplay r.beaver, boolDisplay r.raccoon,
     boolDisplay r.murphy, natDisplay r.murphy_limit, boolDisplay r.jacoby,
     boolDisplay r.crawford, boolDisplay r.holland]

/-- Modelled from the spec: `CubeOwner` is referenced as the type of
`Game.cube_owner` in `src/game.rs` but its declaration lives outside
`src/`; the spec requires it to cover at least Nobody, Player1, Player2. -/
inductive CubeOwner where
  | Nobody
  | Player1
  | Player2
deriving DecidableEq

/-- Modelled from the spec: the `Game` struct declaration lives outside
`src/` (only `impl Default for Game` is present in `src/game.rs`); field
names and meanings follow the spec's Game table, signed board counts are
embedded as `Int`, unsigned counters as `Nat`. The board is a list whose
length is fixed by the array literal in `Game::default()`. -/
structure Game where
  points : Nat
  cube : Nat
  cube_owner : CubeOwner
  one_plays : Bool
  board : List Int
  crawford : Bool
  since_crawford : Nat
deriving DecidableEq

/-- Default impl for `Game` from `src/game.rs`, board literal copied
verbatim. -/
def Game.default : Game :=
  { points := 3
    cube := 0
    cube_owner := CubeOwner.Nobody
    one_plays := true
    board := [2, 0, 0, 0, 0, -5, 0, -3, 0, 0, 0, 5, -5, 0, 0, 0, 3, 0, 5,
              0, 0, 0, 0, -2, 0, 0, 0]
    crawford := false
    since_crawford := 0 }

/-- Modelled from the spec: `roll()` in `src/game.rs` samples
`Uniform::new_inclusive(1, 6)` from the `rand` crate, whose contract is a
uniformly distributed integer in the inclusive range; the entropy drawn
from the OS generator for one sample is abstracted as an arbitrary natural
number, mapped into the range. -/
def uniformSampleInclusive (lo hi : Nat) (entropy : Nat) : Nat :=
  lo + entropy % (hi - lo + 1)

/-- Function `roll` from `src/game.rs`: two independent samples of
`Uniform::new_inclusive(1, 6)`, one per entropy draw. -/
def roll (e1 e2 : Nat) : Nat × Nat :=
  (uniformSampleInclusive 1 6 e1, uniformSampleInclusive 1 6 e2)

/-- One application of the `SetRules` builder interface, as a first-class
operation, for reasoning about arbitrary chains of `with_*` calls. -/
inductive RulesOp where
  | withPoints (p : Nat)
  | withBeaver
  | withRaccoon
  | withMurphy (limit : Nat)
  | withJacoby
  | withCrawford
  | withHolland

/-- Apply one builder operation to a `Rules` value. -/
def applyOp (r : Rules) : RulesOp → Rules
  | RulesOp.withPoints p => r.with_points p
  | RulesOp.withBeaver => r.with_beaver
  | RulesOp.withRaccoon => r.with_raccoon
  | RulesOp.withMurphy limit => r.with_murphy limit
  | RulesOp.withJacoby => r.with_jacoby
  | RulesOp.withCrawford => r.with_crawford
  | RulesOp.withHolland => r.with_holland

/-- Apply a chain of builder operations, left to right. -/
def applyOps (r : Rules) (ops : List RulesOp) : Rules :=
  ops.foldl applyOp r

/-- Cross-field predicate on `Rules`: a nonzero `murphy_limit` is only
observable together with `murphy = true`. -/
def murphyInv (r : Rules) : Prop :=
  r.murphy_limit ≠ 0 → r.murphy = true

/-- Rendering of `Rules` as the spec describes it: the single flat line
with the eight literal field values substituted in order. -/
def rulesLineSpec (r : Rules) : String :=
  "Points: " ++ natDisplay r.points ++
  ", Beaver: " ++ boolDisplay r.beaver ++
  ", Raccoon: " ++ boolDisplay r.raccoon ++
  ", Murphy: " ++ boolDisplay r.murphy ++
  ", Murphy Limit: " ++ natDisplay r.murphy_limit ++
  ", Jacoby: " ++ boolDisplay r.jacoby ++
  ", Crawford: " ++ boolDisplay r.crawford ++
  ", Holland: " ++ boolDisplay r.holland

/-- Helper: every single builder operation preserves `murphyInv`. -/
lemma murphyInv_applyOp (r : Rules) (op : RulesOp) (hr : murphyInv r) :
    murphyInv (applyOp r op) := by
  cases op <;> first | exact hr | exact fun _ => rfl

/-- Helper: every chain of builder operations preserves `murphyInv`. -/
lemma murphyInv_applyOps (r : Rules) (ops : List RulesOp)
    (hr : murphyInv r) : murphyInv (applyOps r ops) := by
  induction ops generalizing r with
  | nil => exact hr
  | cons op rest ih => exact ih _ (murphyInv_applyOp r op hr)

/-- C1 counterexample: the `points` field of `Game::default()` does not
equal the `points` field of `Rules::default()` (3 versus 7). -/
theorem game_points_ne_rules_points :
    ¬ (Game.default.points = Rules.default.points) := by
  decide

/-- C1 amended: `Game::default()` sets its own `points` to 3 while
`Rules::default()` sets `points` to 7; the two are distinct and not
synchronized at construction. -/
theorem game_default_points_three_rules_seven :
    Game.default.points = 3 ∧ Rules.default.points = 7 ∧
      Game.default.points ≠ Rules.default.points := by
  decide

/-- C2 counterexample: the board of `Game::default()` does not have 26
slots. -/
theorem default_board_not_26_slots :
    ¬ (Game.default.board.length = 26) := by
  decide

/-- C2 amended: the board of `Game::default()` is an ordered sequence of
exactly 27 signed-count slots, of which indices 0 through 23 are the 24
standard points and three further slots lie beyond them. -/
theorem default_board_27_slots : Game.default.board.length = 27 := by
  decide

/-- C3: each of the seven `with_*` operations sets exactly its named
target field(s) and leaves every other field of the `Rules` value
unchanged, for every starting value and every argument. -/
theorem with_ops_frame (r : Rules) (p limit : Nat) :
    ((r.with_points p).points = p ∧
      (r.with_points p).beaver = r.beaver ∧
      (r.with_points p).raccoon = r.raccoon ∧
      (r.with_points p).murphy = r.murphy ∧
      (r.with_points p).murphy_limit = r.murphy_limit ∧
      (r.with_points p).jacoby = r.jacoby ∧
      (r.with_points p).crawford = r.crawford ∧
      (r.with_points p).holland = r.holland) ∧
    (r.with_beaver.beaver = true ∧
      r.with_beaver.points = r.points ∧
      r.with_beaver.raccoon = r.raccoon ∧
      r.with_beaver.murphy = r.murphy ∧
      r.with_beaver.murphy_limit = r.murphy_limit ∧
      r.with_beaver.jacoby = r.jacoby ∧
      r.with_beaver.crawford = r.crawford ∧
      r.with_beaver.holland = r.holland) ∧
    (r.with_raccoon.raccoon = true ∧
      r.with_raccoon.points = r.points ∧
      r.with_raccoon.beaver = r.beaver ∧
      r.with_raccoon.murphy = r.murphy ∧
      r.with_raccoon.murphy_limit = r.murphy_limit ∧
      r.with_raccoon.jacoby = r.jacoby ∧
      r.with_raccoon.crawford = r.crawford ∧
      r.with_raccoon.holland = r.holland) ∧
    ((r.with_murphy limit).murphy = true ∧
      (r.with_murphy limit).murphy_limit = limit ∧
      (r.with_murphy limit).points = r.points ∧
      (r.with_murphy limit).beaver = r.beaver ∧
      (r.with_murphy limit).raccoon = r.raccoon ∧
      (r.with_murphy limit).jacoby = r.jacoby ∧
      (r.with_murphy limit).crawford = r.crawford ∧
      (r.with_murphy limit).holland = r.holland) ∧
    (r.with_jacoby.jacoby = true ∧
      r.with_jacoby.points = r.points ∧
      r.with_jacoby.beaver = r.beaver ∧
      r.with_jacoby.raccoon = r.raccoon ∧
      r.with_jacoby.murphy = r.murphy ∧
      r.with_jacoby.murphy_limit = r.murphy_limit ∧
      r.with_jacoby.crawford = r.crawford ∧
      r.with_jacoby.holland = r.holland) ∧
    (r.with_crawford.crawford = true ∧
      r.with_crawford.points = r.points ∧
      r.with_crawford.beaver = r.beaver ∧
      r.with_crawford.raccoon = r.raccoon ∧
      r.with_crawford.murphy = r.murphy ∧
      r.with_crawford.murphy_limit = r.murphy_limit ∧
      r.with_crawford.jacoby = r.jacoby ∧
      r.with_crawford.holland = r.holland) ∧
    (r.with_holland.holland = true ∧
      r.with_holland.points = r.points ∧
      r.with_holland.beaver = r.beaver ∧
      r.with_holland.raccoon = r.raccoon ∧
      r.with_holland.murphy = r.murphy ∧
      r.with_holland.murphy_limit = r.murphy_limit ∧
      r.with_holland.jacoby = r.jacoby ∧
      r.with_holland.crawford = r.crawford) := by
  refine ⟨?_, ?_, ?_, ?_, ?_, ?_, ?_⟩ <;>
    exact ⟨rfl, rfl, rfl, rfl, rfl, rfl, rfl, rfl⟩

/-- C4: every `with_*` operation is idempotent (repeating it with the same
argument changes nothing), and any two distinct `with_*` operations
commute (either application order yields the same `Rules`). -/
theorem with_ops_idempotent_commute (r : Rules) (p limit : Nat) :
    ((r.with_points p).with_points p = r.with_points p ∧
      r.with_beaver.with_beaver = r.with_beaver ∧
      r.with_raccoon.with_raccoon = r.with_raccoon ∧
      (r.with_murphy limit).with_murphy limit = r.with_murphy limit ∧
      r.with_jacoby.with_jacoby = r.with_jacoby ∧
      r.with_crawford.with_crawford = r.with_crawford ∧
      r.with_holland.with_holland = r.with_holland) ∧
    ((r.with_points p).with_beaver = r.with_beaver.with_points p ∧
      (r.with_points p).with_raccoon = r.with_raccoon.with_points p ∧
      (r.with_points p).with_murphy limit =
        (r.with_murphy limit).with_points p ∧
      (r.with_points p).with_jacoby = r.with_jacoby.with_points p ∧
      (r.with_points p).with_crawford = r.with_crawford.with_points p ∧
      (r.with_points p).with_holland = r.with_holland.with_points p ∧
      r.with_beaver.with_raccoon = r.with_raccoon.with_beaver ∧
      r.with_beaver.with_murphy limit =
        (r.with_murphy limit).with_beaver ∧
      r.with_beaver.with_jacoby = r.with_jacoby.with_beaver ∧
      r.with_beaver.with_crawford = r.with_crawford.with_beaver ∧
      r.with_beaver.with_holland = r.with_holland.with_beaver ∧
      r.with_raccoon.with_murphy limit =
        (r.with_murphy limit).with_raccoon ∧
      r.with_raccoon.with_jacoby = r.with_jacoby.with_raccoon ∧
      r.with_raccoon.with_crawford = r.with_crawford.with_raccoon ∧
      r.with_raccoon.with_holland = r.with_holland.with_raccoon ∧
      (r.with_murphy limit).with_jacoby =
        r.with_jacoby.with_murphy limit ∧
      (r.with_murphy limit).with_crawford =
        r.with_crawford.with_murphy limit ∧
      (r.with_murphy limit).with_holland =
        r.with_holland.with_murphy limit ∧
      r.with_jacoby.with_crawford = r.with_crawford.with_jacoby ∧
      r.with_jacoby.with_holland = r.with_holland.with_jacoby ∧
      r.with_crawford.with_holland = r.with_holland.with_crawford) := by
  exact ⟨⟨rfl, rfl, rfl, rfl, rfl, rfl, rfl⟩,
    ⟨rfl, rfl, rfl, rfl, rfl, rfl, rfl, rfl, rfl, rfl, rfl, rfl, rfl, rfl,
     rfl, rfl, rfl, rfl, rfl, rfl, rfl⟩⟩

/-- C5: `Rules::default()` is exactly the configuration points=7,
beaver=false, raccoon=false, murphy=false, murphy_limit=0, jacoby=false,
crawford=true, holland=false. -/
theorem rules_default_values :
    Rules.default.points = 7 ∧
    Rules.default.beaver = false ∧
    Rules.default.raccoon = false ∧
    Rules.default.murphy = false ∧
    Rules.default.murphy_limit = 0 ∧
    Rules.default.jacoby = false ∧
    Rules.default.crawford = true ∧
    Rules.default.holland = false := by
  decide

/-- C6: on the default board the entries sum to zero, the positive entries
sum to 15, the absolute values of the negative entries sum to 15, and for
every point index i in 0..=23 the entry at i is the negation of the entry
at 23-i. -/
theorem default_board_invariants :
    Game.default.board.sum = 0 ∧
    (Game.default.board.filter (fun x => 0 < x)).sum = 15 ∧
    ((Game.default.board.filter (fun x => x < 0)).map (fun x => -x)).sum
      = 15 ∧
    ∀ i < 24,
      Game.default.board.getD i 0 = -(Game.default.board.getD (23 - i) 0)
    := by
  refine ⟨by decide, by decide, by decide, by decide⟩

/-- Witness for C6: the mirror-symmetry conjunct instantiated at point
index 0, whose mirrored index is 23. -/
theorem default_board_invariants_witness :
    Game.default.board.getD 0 0 = -(Game.default.board.getD 23 0) :=
  default_board_invariants.2.2.2 0 (by decide)

/-- C7: the non-board fields of `Game::default()` are exactly points=3,
cube=0, cube_owner=Nobody, one_plays=true, crawford=false,
since_crawford=0. -/
theorem game_default_fields :
    Game.default.points = 3 ∧
    Game.default.cube = 0 ∧
    Game.default.cube_owner = CubeOwner.Nobody ∧
    Game.default.one_plays = true ∧
    Game.default.crawford = false ∧
    Game.default.since_crawford = 0 := by
  decide

/-- C8: for every state of the entropy source, both components of `roll`
lie in the inclusive range 1..6. -/
theorem roll_in_range (e1 e2 : Nat) :
    1 ≤ (roll e1 e2).1 ∧ (roll e1 e2).1 ≤ 6 ∧
    1 ≤ (roll e1 e2).2 ∧ (roll e1 e2).2 ≤ 6 := by
  simp only [roll, uniformSampleInclusive]
  omega

/-- C9: for every `Rules` value its textual rendering is exactly the
single line "Points: P, Beaver: B, Raccoon: R, Murphy: M, Murphy Limit:
L, Jacoby: J, Crawford: C, Holland: H" with the eight placeholders
replaced by the literal renderings of the field values in order. -/
theorem rules_display_line (r : Rules) :
    Rules.display r = rulesLineSpec r := by
  simp only [Rules.display, rulesLineSpec, rulesFormatSegments, formatWith,
    String.append_assoc, String.append_empty]

/-- C10: the predicate "murphy_limit nonzero implies murphy" holds for
`Rules::default()`, is preserved by each of the seven builder operations
with any arguments, and therefore holds for every `Rules` value reachable
from the default through any chain of builder calls. -/
theorem murphy_limit_invariant :
    murphyInv Rules.default ∧
    (∀ r op, murphyInv r → murphyInv (applyOp r op)) ∧
    (∀ ops, murphyInv (applyOps Rules.default ops)) :=
  ⟨fun h => absurd rfl h,
   fun r op hr => murphyInv_applyOp r op hr,
   fun ops => murphyInv_applyOps Rules.default ops (fun h => absurd rfl h)⟩

/-- Witness for C10: a concrete chain that turns on Murphy with limit 3
has a nonzero limit, and the invariant instance proved by the theorem
yields murphy = true there. -/
theorem murphy_limit_invariant_witness :
    (applyOps Rules.default [RulesOp.withMurphy 3]).murphy = true :=
  murphy_limit_invariant.2.2 [RulesOp.withMurphy 3] (by decide)

end Backgammon
